import Mathlib

/-!
Verification development for `EPA_API_pull_ghg_data.py`, a script that builds
Envirofacts REST query URLs, fetches five GHG tables, inner-joins them and
projects a fixed column subset.

The embedding translates the script shallowly:
* `EPAQuery` mirrors the Python class (`__init__` sets the base URL and the
  output format constant `CSV`; `construct_query_URL` is the pure
  string-building method).
* Tables are headers plus rows of `Value`s; `merge` embeds the semantics of
  the pandas inner merge used in `main` (`pd.merge(..., how='inner')` with
  `left_on`/`right_on` key lists): a missing key column raises a key error
  (Python `KeyError`), and key matching is plain value equality — pandas
  merge matches NaN keys with each other, so `Value.null = Value.null`
  counts as a match.  The five tables of this script carry column names
  namespaced by source table, so no merge suffixing of colliding names
  occurs and the merged header is the concatenation of the two headers.
* `main` mirrors the orchestration: build the five unfiltered URLs, fetch
  (parametrised as a function from URL to table, standing for
  `read_query_into_pandas`), run the four inner merges, project to the 13
  selected columns and keep the first 10 rows (`head(10)`).
-/

/-- One cell value of a fetched table: a string, a number, or a missing
value (pandas NaN). -/
inductive Value where
  | str (s : String)
  | num (n : Int)
  | null
deriving DecidableEq, Repr

/-- A row is the list of cell values, aligned with the table header. -/
abbrev Row := List Value

/-- A fetched dataframe: named columns and a list of rows. -/
structure Table where
  header : List String
  rows : List Row
deriving DecidableEq, Repr

/-- Error raised by a pandas merge or column selection when a named column
is absent (Python `KeyError`). -/
inductive MergeError where
  | keyError (col : String)
deriving DecidableEq, Repr

/-- The `EPAQuery` class: fields set by `__init__`. -/
structure EPAQuery where
  base_url : String
  table_name : String
  desired_output_format : String
deriving DecidableEq, Repr

/-- `EPAQuery.__init__`: fixes the base URL and the `CSV` output format. -/
def EPAQuery.init (table_name : String) : EPAQuery :=
  ⟨"https://data.epa.gov/efservice/", table_name, "CSV"⟩

/-- `EPAQuery.construct_query_URL`: appends the table name, then each given
filter qualifier in the fixed order state, county, area code, year, then the
output format, then the optional row range. -/
def EPAQuery.construct_query_URL (self : EPAQuery)
    (desired_state : Option String)
    (desired_county : Option String)
    (desired_area_code : Option String)
    (desired_year : Option String)
    (rows_to_include : Option String) : String :=
  let query := self.base_url ++ self.table_name ++ "/"
  let query := match desired_state with
    | some s => query ++ "state_abbr/" ++ s ++ "/"
    | none => query
  let query := match desired_county with
    | some c => query ++ "county_name/" ++ c ++ "/"
    | none => query
  let query := match desired_area_code with
    | some a => query ++ "zip_code/" ++ a ++ "/"
    | none => query
  let query := match desired_year with
    | some y => query ++ "reporting_year/" ++ y ++ "/"
    | none => query
  let query := query ++ self.desired_output_format
  match rows_to_include with
  | some r => query ++ "/rows/" ++ r
  | none => query

/-- The part of the constructed URL before the output-format token: base
URL, table name and the given filter qualifiers. -/
def queryBody (t : String) (s c a y : Option String) : String :=
  let query := "https://data.epa.gov/efservice/" ++ t ++ "/"
  let query := match s with
    | some v => query ++ "state_abbr/" ++ v ++ "/"
    | none => query
  let query := match c with
    | some v => query ++ "county_name/" ++ v ++ "/"
    | none => query
  let query := match a with
    | some v => query ++ "zip_code/" ++ v ++ "/"
    | none => query
  match y with
  | some v => query ++ "reporting_year/" ++ v ++ "/"
  | none => query

/-- What the optional row range contributes after the format token. -/
def rowsSuffix (r : Option String) : String :=
  match r with
  | some rr => "/rows/" ++ rr
  | none => ""

/-- Spec-side segment model (used to state C2): the segment contributed by
one filter — the qualifier/value pair when given, nothing when omitted. -/
def filterSegment (qualifier : String) (v : Option String) :
    List (String × String) :=
  match v with
  | some s => [(qualifier, s)]
  | none => []

/-- Spec-side segment model: the segments of the given filters, in the fixed
order state, county, area code, year. -/
def givenSegments (s c a y : Option String) : List (String × String) :=
  filterSegment "state_abbr" s ++ filterSegment "county_name" c
    ++ filterSegment "zip_code" a ++ filterSegment "reporting_year" y

/-- Spec-side segment model: render a segment list as the path fragment
`qualifier/value/` for each segment in order. -/
def renderSegments (segs : List (String × String)) : String :=
  segs.foldl (fun acc p => acc ++ p.1 ++ "/" ++ p.2 ++ "/") ""

/-- Cell lookup by column name: the value at the column's header position,
`none` when the column is absent. -/
def getCell (header : List String) (row : Row) (col : String) : Option Value :=
  match header.findIdx? (fun c => c == col) with
  | some i => row.get? i
  | none => none

/-- pandas merge key matching: every left-key/right-key pair must hold equal
values (null equals null, as pandas matches NaN merge keys). -/
def keysMatch (ha hb : List String) (lks rks : List String) (l r : Row) : Bool :=
  (lks.zip rks).all (fun p => decide (getCell ha l p.1 = getCell hb r p.2))

/-- The matched row pairs of an inner merge: every pair of a left row and a
right row whose key columns match, left-major order as pandas preserves the
order of the left keys. -/
def joinPairs (A B : Table) (lks rks : List String) : List (Row × Row) :=
  A.rows.flatMap (fun l =>
    (B.rows.filter (fun r => keysMatch A.header B.header lks rks l r)).map
      (fun r => (l, r)))

/-- `pd.merge(A, B, left_on=lks, right_on=rks, how='inner')`: raises a
`KeyError` naming the first absent key column, otherwise keeps exactly the
concatenations of matching row pairs. -/
def merge (A B : Table) (lks rks : List String) : Except MergeError Table :=
  match lks.find? (fun k => !(A.header.contains k)) with
  | some k => .error (.keyError k)
  | none =>
    match rks.find? (fun k => !(B.header.contains k)) with
    | some k => .error (.keyError k)
    | none =>
      .ok ⟨A.header ++ B.header,
        (joinPairs A B lks rks).map (fun p => p.1 ++ p.2)⟩

/-- Column projection `df[[cols]]`: raises a `KeyError` naming the first
absent column, otherwise keeps the named columns in the given order. -/
def subsetColumns (t : Table) (cols : List String) : Except MergeError Table :=
  match cols.find? (fun c => !(t.header.contains c)) with
  | some c => .error (.keyError c)
  | none =>
    .ok ⟨cols,
      t.rows.map (fun row => cols.map (fun c => (getCell t.header row c).getD .null))⟩

/-- `df.head(n)`: the first `n` rows. -/
def Table.head (t : Table) (n : Nat) : Table :=
  ⟨t.header, t.rows.take n⟩

/-- The fixed list of tables pulled by `main`. -/
def table_names : List String :=
  ["PUB_DIM_FACILITY", "PUB_FACTS_SECTOR_GHG_EMISSION",
   "PUB_DIM_SECTOR", "PUB_DIM_SUBSECTOR", "PUB_DIM_GHG"]

/-- The 13 columns `main` projects the master dataframe down to. -/
def selected_columns : List String :=
  ["PUB_DIM_FACILITY.LATITUDE", "PUB_DIM_FACILITY.LONGITUDE",
   "PUB_DIM_FACILITY.CITY", "PUB_DIM_FACILITY.STATE",
   "PUB_DIM_FACILITY.ZIP", "PUB_DIM_FACILITY.COUNTY",
   "PUB_DIM_FACILITY.ADDRESS1", "PUB_DIM_FACILITY.YEAR",
   "PUB_DIM_FACILITY.PARENT_COMPANY", "PUB_DIM_SECTOR.SECTOR_NAME",
   "PUB_DIM_SUBSECTOR.SUBSECTOR_DESC", "PUB_DIM_GHG.GAS_CODE",
   "PUB_FACTS_SECTOR_GHG_EMISSION.CO2E_EMISSION"]

/-- The orchestrator `main`, parametrised by the fetch step (URL to parsed
dataframe): build an unfiltered query per table into the `epa_dfs`
dictionary, then the four inner merges, the 13-column projection and
`head(10)`. -/
def Script.main (fetch : String → Table) : Except MergeError Table :=
  let epa_dfs : List (String × Table) :=
    table_names.map (fun table_name =>
      (table_name,
        fetch ((EPAQuery.init table_name).construct_query_URL
          none none none none none)))
  let df : String → Table := fun n => (epa_dfs.lookup n).getD ⟨[], []⟩
  do
    let master1 ← merge (df "PUB_DIM_FACILITY") (df "PUB_FACTS_SECTOR_GHG_EMISSION")
      ["PUB_DIM_FACILITY.FACILITY_ID", "PUB_DIM_FACILITY.YEAR"]
      ["PUB_FACTS_SECTOR_GHG_EMISSION.FACILITY_ID",
       "PUB_FACTS_SECTOR_GHG_EMISSION.YEAR"]
    let master2 ← merge master1 (df "PUB_DIM_SECTOR")
      ["PUB_FACTS_SECTOR_GHG_EMISSION.SECTOR_ID"] ["PUB_DIM_SECTOR.SECTOR_ID"]
    let master3 ← merge master2 (df "PUB_DIM_SUBSECTOR")
      ["PUB_FACTS_SECTOR_GHG_EMISSION.SUBSECTOR_ID"]
      ["PUB_DIM_SUBSECTOR.SUBSECTOR_ID"]
    let master4 ← merge master3 (df "PUB_DIM_GHG")
      ["PUB_FACTS_SECTOR_GHG_EMISSION.GAS_ID"] ["PUB_DIM_GHG.GAS_ID"]
    let master_df_subsetted ← subsetColumns master4 selected_columns
    pure (master_df_subsetted.head 10)

/-- Without a row range, the constructed URL is the query body followed by
the output format. -/
theorem construct_query_URL_none_eq (t : String) (s c a y : Option String) :
    (EPAQuery.init t).construct_query_URL s c a y none
      = queryBody t s c a y ++ "CSV" := rfl

/-- With a row range, the constructed URL is the query body, the output
format, and the row qualifier. -/
theorem construct_query_URL_some_eq (t : String) (s c a y : Option String)
    (rr : String) :
    (EPAQuery.init t).construct_query_URL s c a y (some rr)
      = queryBody t s c a y ++ "CSV" ++ "/rows/" ++ rr := rfl

/-- The query body is the base URL, the table name, and the rendered
segments of the given filters. -/
theorem queryBody_eq (t : String) (s c a y : Option String) :
    queryBody t s c a y
      = "https://data.epa.gov/efservice/" ++ t ++ "/"
        ++ renderSegments (givenSegments s c a y) := by
  cases s <;> cases c <;> cases a <;> cases y <;>
    (apply String.ext
     simp [queryBody, givenSegments, filterSegment, renderSegments,
       String.data_append])

/-- The qualifiers of the given segments are the given filters' qualifiers,
filtered out of the full fixed order. -/
theorem givenSegments_map_fst (s c a y : Option String) :
    (givenSegments s c a y).map Prod.fst
      = ["state_abbr", "county_name", "zip_code", "reporting_year"].filter
          (fun q => (q == "state_abbr" && s.isSome)
            || (q == "county_name" && c.isSome)
            || (q == "zip_code" && a.isSome)
            || (q == "reporting_year" && y.isSome)) := by
  cases s <;> cases c <;> cases a <;> cases y <;> rfl

/-- C2: the constructed path is the base URL, the table name, and each given
filter's segment rendered exactly once, in the fixed relative order state,
county, area code, year, with an omitted filter contributing no characters;
the segment qualifiers present are exactly the given ones, kept in the fixed
order. -/
theorem construct_query_URL_segments (t : String) (s c a y r : Option String) :
    (EPAQuery.init t).construct_query_URL s c a y r
      = "https://data.epa.gov/efservice/" ++ t ++ "/"
        ++ renderSegments (givenSegments s c a y) ++ "CSV" ++ rowsSuffix r
    ∧ (givenSegments s c a y).map Prod.fst
      = ["state_abbr", "county_name", "zip_code", "reporting_year"].filter
          (fun q => (q == "state_abbr" && s.isSome)
            || (q == "county_name" && c.isSome)
            || (q == "zip_code" && a.isSome)
            || (q == "reporting_year" && y.isSome)) := by
  refine ⟨?_, givenSegments_map_fst s c a y⟩
  cases r with
  | none =>
    rw [construct_query_URL_none_eq, queryBody_eq]
    simp [rowsSuffix, String.append_empty]
  | some rr =>
    rw [construct_query_URL_some_eq, queryBody_eq]
    apply String.ext
    simp [rowsSuffix, String.data_append]

/-- C6: without a row range the path ends with the output-format token, and
with a row range the literal `/rows/` plus the range is appended directly
after the format token, at the very end of the path. -/
theorem construct_query_URL_format_position (t : String) (s c a y : Option String) :
    (∃ p, (EPAQuery.init t).construct_query_URL s c a y none = p ++ "CSV")
    ∧ ∀ rr, (EPAQuery.init t).construct_query_URL s c a y (some rr)
        = (EPAQuery.init t).construct_query_URL s c a y none ++ "/rows/" ++ rr :=
  ⟨⟨queryBody t s c a y, construct_query_URL_none_eq t s c a y⟩, fun _ => rfl⟩

/-- C8: path construction is deterministic — equal table names and equal
filter arguments yield equal path strings. -/
theorem construct_query_URL_deterministic (t t' : String)
    (s s' c c' a a' y y' r r' : Option String)
    (ht : t = t') (hs : s = s') (hc : c = c') (ha : a = a')
    (hy : y = y') (hr : r = r') :
    (EPAQuery.init t).construct_query_URL s c a y r
      = (EPAQuery.init t').construct_query_URL s' c' a' y' r' := by
  subst ht hs hc ha hy hr; rfl

/-- Witness for C8 at a concrete query. -/
theorem construct_query_URL_deterministic_witness :
    (EPAQuery.init "PUB_DIM_GHG").construct_query_URL none none none none none
      = (EPAQuery.init "PUB_DIM_GHG").construct_query_URL none none none none none :=
  construct_query_URL_deterministic "PUB_DIM_GHG" "PUB_DIM_GHG"
    none none none none none none none none none none
    rfl rfl rfl rfl rfl rfl

/-- C9: an empty-string state filter is not treated as omitted — the
`state_abbr` segment is still inserted, leaving two adjacent slashes in the
path, which therefore differs from the path with the filter omitted. -/
theorem construct_query_URL_empty_state (t : String) :
    (EPAQuery.init t).construct_query_URL (some "") none none none none
      = "https://data.epa.gov/efservice/" ++ t ++ "/" ++ "state_abbr//" ++ "CSV"
    ∧ (EPAQuery.init t).construct_query_URL (some "") none none none none
      ≠ (EPAQuery.init t).construct_query_URL none none none none none := by
  constructor
  · apply String.ext
    simp [EPAQuery.construct_query_URL, EPAQuery.init, String.data_append]
  · intro h
    have hd := congrArg (fun u => u.data.length) h
    simp [EPAQuery.construct_query_URL, EPAQuery.init, String.data_append] at hd

/-- C10: the output format is the constant `CSV`, fixed by `__init__`, and
every constructed path carries `CSV` as its format token, just before the
optional rows suffix. -/
theorem desired_output_format_constant (t : String) (s c a y r : Option String) :
    (EPAQuery.init t).desired_output_format = "CSV"
    ∧ ∃ p, (EPAQuery.init t).construct_query_URL s c a y r
        = p ++ "CSV" ++ rowsSuffix r := by
  refine ⟨rfl, queryBody t s c a y, ?_⟩
  cases r with
  | none =>
    rw [construct_query_URL_none_eq]
    simp [rowsSuffix, String.append_empty]
  | some rr =>
    rw [construct_query_URL_some_eq]
    apply String.ext
    simp [rowsSuffix, String.data_append]

/-- C7: the builder on table `T` with state `OH`, year `2019` and no other
filters returns exactly the expected URL string. -/
theorem construct_query_URL_T_OH_2019 :
    (EPAQuery.init "T").construct_query_URL (some "OH") none none (some "2019") none
      = "https://data.epa.gov/efservice/T/state_abbr/OH/reporting_year/2019/CSV" := by
  rfl

/-- Key matching is symmetric: swapping the tables and the key lists gives
the same verdict. -/
theorem keysMatch_symm (ha hb : List String) (lks rks : List String) (l r : Row) :
    keysMatch hb ha rks lks r l = keysMatch ha hb lks rks l r := by
  unfold keysMatch
  induction lks generalizing rks with
  | nil => cases rks <;> rfl
  | cons k ks ih =>
    cases rks with
    | nil => rfl
    | cons k' ks' =>
      simp only [List.zip_cons_cons, List.all_cons, ih]
      congr 1
      exact decide_eq_decide.mpr ⟨Eq.symm, Eq.symm⟩

/-- A pair survives the inner merge iff its halves come from the two tables
and their key columns match. -/
theorem mem_joinPairs (A B : Table) (lks rks : List String) (p : Row × Row) :
    p ∈ joinPairs A B lks rks
      ↔ p.1 ∈ A.rows ∧ p.2 ∈ B.rows
        ∧ keysMatch A.header B.header lks rks p.1 p.2 = true := by
  obtain ⟨l, r⟩ := p
  simp only [joinPairs, List.mem_flatMap, List.mem_map, List.mem_filter]
  constructor
  · rintro ⟨l', hl', r', ⟨hr', hm'⟩, heq⟩
    cases heq
    exact ⟨hl', hr', hm'⟩
  · rintro ⟨hl, hr, hm⟩
    exact ⟨l, hl, r, ⟨hr, hm⟩, rfl⟩

/-- A successful merge returns the concatenated headers and the
concatenations of the matching row pairs. -/
theorem merge_ok_iff (A B : Table) (lks rks : List String) (t : Table)
    (h : merge A B lks rks = .ok t) :
    t = ⟨A.header ++ B.header,
      (joinPairs A B lks rks).map (fun p => p.1 ++ p.2)⟩ := by
  unfold merge at h
  split at h
  · exact absurd h (by simp)
  · split at h
    · exact absurd h (by simp)
    · exact (Except.ok.injEq .. ▸ h).symm

/-- C3 (amended): a row survives the inner merge iff it is the
concatenation of a left row and a right row whose key values are equal for
every key pair — where a null key value on one side equals a null key value
on the other, since pandas merge matches NaN keys (rows with null keys do
join to each other). -/
theorem merge_mem_iff (A B : Table) (lks rks : List String) (t : Table)
    (h : merge A B lks rks = .ok t) (row : Row) :
    row ∈ t.rows ↔ ∃ l, l ∈ A.rows ∧ ∃ r, r ∈ B.rows
      ∧ (∀ p ∈ lks.zip rks, getCell A.header l p.1 = getCell B.header r p.2)
      ∧ row = l ++ r := by
  have ht := merge_ok_iff A B lks rks t h
  subst ht
  simp only [List.mem_map, mem_joinPairs]
  constructor
  · rintro ⟨⟨l, r⟩, ⟨hl, hr, hm⟩, rfl⟩
    refine ⟨l, hl, r, hr, ?_, rfl⟩
    intro p hp
    exact of_decide_eq_true (List.all_eq_true.mp hm p hp)
  · rintro ⟨l, hl, r, hr, hm, rfl⟩
    exact ⟨(l, r), ⟨hl, hr,
      List.all_eq_true.mpr (fun p hp => decide_eq_true (hm p hp))⟩, rfl⟩

/-- Counterexample to C3 as stated: merging two single-row tables whose key
values are both null produces the joined row — the null keys matched each
other. -/
theorem merge_null_keys_join :
    merge ⟨["K"], [[Value.null]]⟩ ⟨["J"], [[Value.null]]⟩ ["K"] ["J"]
      = .ok ⟨["K", "J"], [[Value.null, Value.null]]⟩
    ∧ getCell ["K"] [Value.null] "K" = some Value.null
    ∧ getCell ["J"] [Value.null] "J" = some Value.null :=
  ⟨rfl, rfl, rfl⟩

/-- Witness for the amended C3 at concrete tables. -/
theorem merge_mem_iff_witness :
    merge ⟨["K"], [[Value.num 1]]⟩ ⟨["J"], [[Value.num 1], [Value.num 2]]⟩ ["K"] ["J"]
      = .ok ⟨["K", "J"], [[Value.num 1, Value.num 1]]⟩
    ∧ ([Value.num 1, Value.num 1]
        ∈ (⟨["K", "J"], [[Value.num 1, Value.num 1]]⟩ : Table).rows
      ↔ ∃ l, l ∈ (⟨["K"], [[Value.num 1]]⟩ : Table).rows
          ∧ ∃ r, r ∈ (⟨["J"], [[Value.num 1], [Value.num 2]]⟩ : Table).rows
          ∧ (∀ p ∈ (["K"].zip ["J"] : List (String × String)),
              getCell ["K"] l p.1 = getCell ["J"] r p.2)
          ∧ [Value.num 1, Value.num 1] = l ++ r) :=
  ⟨rfl, merge_mem_iff ⟨["K"], [[Value.num 1]]⟩ ⟨["J"], [[Value.num 1], [Value.num 2]]⟩
    ["K"] ["J"] ⟨["K", "J"], [[Value.num 1, Value.num 1]]⟩ rfl
    [Value.num 1, Value.num 1]⟩

/-- C5: the inner merge is commutative in row content — both directions
keep exactly the matching row pairs, and a pair survives one direction iff
its swap survives the other; only the column order from each side differs
(left columns first). -/
theorem merge_comm_row_content (A B : Table) (lks rks : List String)
    (tl tr : Table) (hl : merge A B lks rks = .ok tl)
    (hr : merge B A rks lks = .ok tr) (p : Row × Row) :
    tl.rows = (joinPairs A B lks rks).map (fun q => q.1 ++ q.2)
    ∧ tr.rows = (joinPairs B A rks lks).map (fun q => q.1 ++ q.2)
    ∧ (p ∈ joinPairs A B lks rks ↔ (p.2, p.1) ∈ joinPairs B A rks lks) := by
  refine ⟨by rw [merge_ok_iff A B lks rks tl hl],
    by rw [merge_ok_iff B A rks lks tr hr], ?_⟩
  rw [mem_joinPairs, mem_joinPairs]
  dsimp only
  rw [keysMatch_symm]
  constructor
  · rintro ⟨h1, h2, h3⟩; exact ⟨h2, h1, h3⟩
  · rintro ⟨h1, h2, h3⟩; exact ⟨h2, h1, h3⟩

/-- Witness for C5 at concrete tables joined in both directions. -/
theorem merge_comm_row_content_witness :
    (⟨["K", "J"], [[Value.num 1, Value.num 1]]⟩ : Table).rows
      = (joinPairs ⟨["K"], [[Value.num 1], [Value.num 2]]⟩ ⟨["J"], [[Value.num 1]]⟩
          ["K"] ["J"]).map (fun q => q.1 ++ q.2)
    ∧ (⟨["J", "K"], [[Value.num 1, Value.num 1]]⟩ : Table).rows
      = (joinPairs ⟨["J"], [[Value.num 1]]⟩ ⟨["K"], [[Value.num 1], [Value.num 2]]⟩
          ["J"] ["K"]).map (fun q => q.1 ++ q.2)
    ∧ (([Value.num 1], [Value.num 1])
        ∈ joinPairs ⟨["K"], [[Value.num 1], [Value.num 2]]⟩ ⟨["J"], [[Value.num 1]]⟩
          ["K"] ["J"]
      ↔ ([Value.num 1], [Value.num 1])
        ∈ joinPairs ⟨["J"], [[Value.num 1]]⟩ ⟨["K"], [[Value.num 1], [Value.num 2]]⟩
          ["J"] ["K"]) :=
  merge_comm_row_content ⟨["K"], [[Value.num 1], [Value.num 2]]⟩ ⟨["J"], [[Value.num 1]]⟩
    ["K"] ["J"] ⟨["K", "J"], [[Value.num 1, Value.num 1]]⟩
    ⟨["J", "K"], [[Value.num 1, Value.num 1]]⟩ rfl rfl
    ([Value.num 1], [Value.num 1])

/-- C4: when a key column is absent from either input table the merge
returns an identifiable missing-column error, and never silently returns a
table. -/
theorem merge_missing_key_error (A B : Table) (lks rks : List String)
    (h : (∃ k, k ∈ lks ∧ k ∉ A.header) ∨ (∃ k, k ∈ rks ∧ k ∉ B.header)) :
    (∃ k, merge A B lks rks = .error (.keyError k))
    ∧ ∀ t, merge A B lks rks ≠ .ok t := by
  have hmain : ∃ k, merge A B lks rks = .error (.keyError k) := by
    unfold merge
    rcases h1 : lks.find? (fun k => !(A.header.contains k)) with _ | k
    · rcases h2 : rks.find? (fun k => !(B.header.contains k)) with _ | k
      · exfalso
        rcases h with ⟨k, hk, hnk⟩ | ⟨k, hk, hnk⟩
        · have := List.find?_eq_none.mp h1 k hk
          simp at this
          exact hnk this
        · have := List.find?_eq_none.mp h2 k hk
          simp at this
          exact hnk this
      · exact ⟨k, by simp [h1, h2]⟩
    · exact ⟨k, by simp [h1]⟩
  refine ⟨hmain, fun t ht => ?_⟩
  obtain ⟨k, hk⟩ := hmain
  rw [hk] at ht
  cases ht

/-- Witness for C4 at a concrete merge whose left key column is absent. -/
theorem merge_missing_key_error_witness :
    (∃ k, merge ⟨["X"], []⟩ ⟨["J"], []⟩ ["K"] ["J"] = .error (.keyError k))
    ∧ ∀ t, merge ⟨["X"], []⟩ ⟨["J"], []⟩ ["K"] ["J"] ≠ .ok t :=
  merge_missing_key_error ⟨["X"], []⟩ ⟨["J"], []⟩ ["K"] ["J"]
    (Or.inl ⟨"K", by decide, by decide⟩)

/-- C1: on the five fetched tables, `main` is exactly the stated pipeline —
inner-join FACILITY with SECTOR_GHG_EMISSION on the compound key
(FACILITY_ID, YEAR), then with SECTOR on SECTOR_ID, then with SUBSECTOR on
SUBSECTOR_ID, then with GHG on GAS_ID, project to the fixed 13 columns, and
output the first 10 rows of that projection. -/
theorem main_eq_pipeline (fetch : String → Table) :
    Script.main fetch
      = (merge (fetch "https://data.epa.gov/efservice/PUB_DIM_FACILITY/CSV")
          (fetch "https://data.epa.gov/efservice/PUB_FACTS_SECTOR_GHG_EMISSION/CSV")
          ["PUB_DIM_FACILITY.FACILITY_ID", "PUB_DIM_FACILITY.YEAR"]
          ["PUB_FACTS_SECTOR_GHG_EMISSION.FACILITY_ID",
           "PUB_FACTS_SECTOR_GHG_EMISSION.YEAR"]).bind
        (fun m1 => (merge m1 (fetch "https://data.epa.gov/efservice/PUB_DIM_SECTOR/CSV")
          ["PUB_FACTS_SECTOR_GHG_EMISSION.SECTOR_ID"] ["PUB_DIM_SECTOR.SECTOR_ID"]).bind
        (fun m2 => (merge m2 (fetch "https://data.epa.gov/efservice/PUB_DIM_SUBSECTOR/CSV")
          ["PUB_FACTS_SECTOR_GHG_EMISSION.SUBSECTOR_ID"]
          ["PUB_DIM_SUBSECTOR.SUBSECTOR_ID"]).bind
        (fun m3 => (merge m3 (fetch "https://data.epa.gov/efservice/PUB_DIM_GHG/CSV")
          ["PUB_FACTS_SECTOR_GHG_EMISSION.GAS_ID"] ["PUB_DIM_GHG.GAS_ID"]).bind
        (fun m4 => (subsetColumns m4
          ["PUB_DIM_FACILITY.LATITUDE", "PUB_DIM_FACILITY.LONGITUDE",
           "PUB_DIM_FACILITY.CITY", "PUB_DIM_FACILITY.STATE",
           "PUB_DIM_FACILITY.ZIP", "PUB_DIM_FACILITY.COUNTY",
           "PUB_DIM_FACILITY.ADDRESS1", "PUB_DIM_FACILITY.YEAR",
           "PUB_DIM_FACILITY.PARENT_COMPANY", "PUB_DIM_SECTOR.SECTOR_NAME",
           "PUB_DIM_SUBSECTOR.SUBSECTOR_DESC", "PUB_DIM_GHG.GAS_CODE",
           "PUB_FACTS_SECTOR_GHG_EMISSION.CO2E_EMISSION"]).bind
        (fun s => .ok ⟨s.header, s.rows.take 10⟩))))) := by
  rfl
